import Mathlib

/-!
Verification of the engagement aggregation pipeline
(`Engagement Calculate/Engagement_data_1_processor.py`,
`Engagement Calculate/Engagement_overall_processor.py`,
`Engagement Calculate/strategic_signal_matrix_X.py`,
`Engagement Calculate/strategic_signal_matrix_truth_media.py`).

The scripts are single-pass batch computations over an in-memory table.
We embed them shallowly: a CSV row becomes a structure, a dataframe a
`List`, pandas `filter`/`sum`/`groupby` become list operations, Python
floats become exact rationals (`ℚ`), and Python's banker's rounding
(`round`) becomes `pyRound` below.  The f-string presentation formats
(`:.2f`, `:,`, `:,.0f`) only affect how a number is printed; output
cells that the scripts leave as the empty string `''` when a guard
fails are modelled as `Option` values (`none` = empty cell), with the
pre-format rational carried in `some`.
-/

namespace Engagement

/-- One row of `Engagement_data_raw.csv`: columns
`Tag_id, Category_id, Platform, Likes, Repost, Replies`. -/
structure RawRecord where
  tag_id : String
  category_id : String
  platform : String
  likes : Int
  repost : Int
  replies : Int
  deriving DecidableEq, Repr

/-- Does the character list `pat` occur as a contiguous run inside `s`?
This is the semantics of pandas `Series.str.contains(pat, na=False)` for a
pattern with no regex metacharacters — every taxonomy code is alphanumeric,
so regex matching coincides with plain substring containment. -/
def listIsInfix (pat : List Char) : List Char → Bool
  | [] => pat.isEmpty
  | c :: t => pat.isPrefixOf (c :: t) || listIsInfix pat t

/-- `pat in s` on strings (substring containment). -/
def strContains (s pat : String) : Bool := listIsInfix pat.data s.data

/-- Round a rational to the nearest integer, ties to even: the semantics of
Python's builtin `round`.  `x.num.ediv x.den` is `⌊x⌋` since `x.den > 0`. -/
def pyRound (x : ℚ) : ℤ :=
  let f : ℤ := x.num.ediv x.den
  let r : ℚ := x - (f : ℚ)
  if r < 1/2 then f
  else if 1/2 < r then f + 1
  else if f % 2 = 0 then f else f + 1

/-- Python's `round(x, 2)`: round to 2 decimal places, ties to even. -/
def round2 (x : ℚ) : ℚ := (pyRound (x * 100) : ℚ) / 100

/-- Strict lexicographic comparison of character lists by code point:
the order Python and pandas use on strings. -/
def charListLt : List Char → List Char → Bool
  | _, [] => false
  | [], _ :: _ => true
  | a :: as, b :: bs =>
    decide (a.toNat < b.toNat) || (decide (a.toNat = b.toNat) && charListLt as bs)

/-- Strict lexicographic order on strings. -/
def strLt (a b : String) : Bool := charListLt a.data b.data

/-- Non-strict lexicographic order on strings. -/
def strLe (a b : String) : Bool := strLt a b || a == b

/-- The fixed 22-tag taxonomy hardcoded as `all_expected_tags` in
`Engagement_data_1_processor.load_and_process_data`. -/
def all_expected_tags : List String :=
  ["A1", "A2", "A3", "A4", "A5", "A6",
   "B1", "B2", "B3", "B4", "B5", "B6", "B7", "B8",
   "C1", "C2", "C3", "C4", "C5", "C6", "C7", "C8"]

/-- One row of `Engagement_data_processed.csv` (the tag-level output).
`frequency_count` is the `Frequency (Count)` column, `frequency_pct` the
`Frequency (%)` column; the three `Average` columns carry the 2-dp-rounded
values the script writes. -/
structure TagRow where
  Tag_id : String
  Category_id : String
  frequency_count : Nat
  frequency_pct : ℚ
  Total_Likes : Int
  Total_Reposts : Int
  Total_Comments : Int
  Total_Engagement : Int
  X_Total_Engagement : Int
  Truth_Total_Engagement : Int
  Average_Engagement : ℚ
  X_Average_Engagement : ℚ
  Truth_Average_Engagement : ℚ
  deriving DecidableEq, Repr

/-- `tag_data['Likes'].sum()`. -/
def sumLikes (l : List RawRecord) : Int := (l.map RawRecord.likes).sum

/-- `tag_data['Repost'].sum()`. -/
def sumReposts (l : List RawRecord) : Int := (l.map RawRecord.repost).sum

/-- `tag_data['Replies'].sum()`. -/
def sumReplies (l : List RawRecord) : Int := (l.map RawRecord.replies).sum

/-- The body of the `for tag_id in all_expected_tags` loop of
`load_and_process_data` (`Engagement_data_1_processor.py`, lines 52–131):
select the records whose `Tag_id` contains `tag_id` as a substring, then
either compute the metrics (non-empty case) or emit the all-zero row. -/
def mkTagRow (records : List RawRecord) (tag_id : String) : TagRow :=
  let category_id := String.mk (tag_id.data.take 1)
  let tag_data := records.filter (fun r => strContains r.tag_id tag_id)
  let total_records := records.length
  if 0 < tag_data.length then
    let frequency_count := tag_data.length
    let frequency_percent : ℚ := ((frequency_count : ℚ) / (total_records : ℚ)) * 100
    let total_likes := sumLikes tag_data
    let total_reposts := sumReposts tag_data
    let total_comments := sumReplies tag_data
    let total_engagement := total_likes + total_reposts + total_comments
    let x_data := tag_data.filter (fun r => r.platform == "X")
    let x_total_engagement :=
      if 0 < x_data.length then sumLikes x_data + sumReposts x_data + sumReplies x_data else 0
    let truth_data := tag_data.filter (fun r => r.platform == "Truth Social")
    let truth_total_engagement :=
      if 0 < truth_data.length then
        sumLikes truth_data + sumReposts truth_data + sumReplies truth_data
      else 0
    let average_engagement : ℚ :=
      if 0 < frequency_count then (total_engagement : ℚ) / (frequency_count : ℚ) else 0
    let x_frequency_count := if 0 < x_data.length then x_data.length else 0
    let x_average_engagement : ℚ :=
      if 0 < x_frequency_count then (x_total_engagement : ℚ) / (x_frequency_count : ℚ) else 0
    let truth_frequency_count := if 0 < truth_data.length then truth_data.length else 0
    let truth_average_engagement : ℚ :=
      if 0 < truth_frequency_count then
        (truth_total_engagement : ℚ) / (truth_frequency_count : ℚ)
      else 0
    { Tag_id := tag_id
      Category_id := category_id
      frequency_count := frequency_count
      frequency_pct := round2 frequency_percent
      Total_Likes := total_likes
      Total_Reposts := total_reposts
      Total_Comments := total_comments
      Total_Engagement := total_engagement
      X_Total_Engagement := x_total_engagement
      Truth_Total_Engagement := truth_total_engagement
      Average_Engagement := round2 average_engagement
      X_Average_Engagement := round2 x_average_engagement
      Truth_Average_Engagement := round2 truth_average_engagement }
  else
    { Tag_id := tag_id
      Category_id := category_id
      frequency_count := 0
      frequency_pct := 0
      Total_Likes := 0
      Total_Reposts := 0
      Total_Comments := 0
      Total_Engagement := 0
      X_Total_Engagement := 0
      Truth_Total_Engagement := 0
      Average_Engagement := 0
      X_Average_Engagement := 0
      Truth_Average_Engagement := 0 }

/-- The all-zero row the script appends for a taxonomy tag with no
matching records (the `else` arm of the loop body). -/
def zeroTagRow (tag_id : String) : TagRow :=
  { Tag_id := tag_id
    Category_id := String.mk (tag_id.data.take 1)
    frequency_count := 0
    frequency_pct := 0
    Total_Likes := 0
    Total_Reposts := 0
    Total_Comments := 0
    Total_Engagement := 0
    X_Total_Engagement := 0
    Truth_Total_Engagement := 0
    Average_Engagement := 0
    X_Average_Engagement := 0
    Truth_Average_Engagement := 0 }

/-- The `results` list built by the tag loop, in taxonomy order. -/
def tagRows (records : List RawRecord) : List TagRow :=
  all_expected_tags.map (mkTagRow records)

/-- The key order used by `df_processed.sort_values(['Category_id', 'Tag_id'])`:
lexicographic on the pair of strings, ascending.  The keys of distinct rows
are distinct (tag codes are unique), so any correct sort — pandas quicksort
included — produces the same list as sorting by this relation. -/
def rowLe (a b : TagRow) : Prop :=
  strLt a.Category_id b.Category_id = true ∨
    (a.Category_id = b.Category_id ∧ strLe a.Tag_id b.Tag_id = true)

instance : DecidableRel rowLe := fun a b => by unfold rowLe; infer_instance

/-- `Engagement_data_processed.csv`: the rows sorted by
`Category_id` then `Tag_id`. -/
def processedRows (records : List RawRecord) : List TagRow :=
  (tagRows records).insertionSort rowLe

/-!
`Engagement_overall_processor.py`: rollup of the tag-level table to the
three categories.  Output cells that the script renders as the empty
string `''` when a guard fails are modelled as `none`; `some v` carries
the exact value that the script's f-string then formats (`:.2f%` for
percentages, `:,` for totals, `:,.0f` for averages — presentation only).
-/

/-- One row of `Engagement_overall_result.csv`: columns
`Category ID, Category Name, Platform, Frequency (Count), Frequency (%),
Total Engagement, Average Engagement`. -/
structure CatRow where
  CategoryID : String
  CategoryName : String
  Platform : String
  freqCount : Option Nat
  freqPct : Option ℚ
  totalEngagement : Option Int
  avgEngagement : Option ℚ
  deriving DecidableEq, Repr

/-- The `category_names` dictionary of `calculate_category_stats`. -/
def categoryName (c : String) : String :=
  if c = "A" then "Subjugating the Bureaucracy"
  else if c = "B" then "Waging Culture Wars"
  else if c = "C" then "Remaking Power Structures"
  else ""

/-- One entry of
`df_raw.groupby(['Category_id', 'Platform']).size().unstack(fill_value=0)`:
the number of raw records carrying the given `Category_id` and `Platform`. -/
def crosstabCount (raw : List RawRecord) (cat platform : String) : Nat :=
  (raw.filter (fun r => r.category_id == cat && r.platform == platform)).length

/-- `df['Frequency (Count)'].sum()`. -/
def sumFreqCount (l : List TagRow) : Nat := (l.map TagRow.frequency_count).sum

/-- `df['Total_Engagement'].sum()`. -/
def sumTotalEngagement (l : List TagRow) : Int := (l.map TagRow.Total_Engagement).sum

/-- `df['X_Total_Engagement'].sum()`. -/
def sumXTotalEngagement (l : List TagRow) : Int :=
  (l.map TagRow.X_Total_Engagement).sum

/-- `df['Truth_Total_Engagement'].sum()`. -/
def sumTruthTotalEngagement (l : List TagRow) : Int :=
  (l.map TagRow.Truth_Total_Engagement).sum

/-- `df[df['Category_id'] == category]`. -/
def categoryData (df : List TagRow) (category : String) : List TagRow :=
  df.filter (fun row => row.Category_id == category)

/-- The X-platform frequency of a category, as `calculate_category_stats`
obtains it: from the raw-data crosstab when the raw file was loaded and the
`'X'` column exists (some raw record has platform `X`; a category missing
from the crosstab index counts as 0), and otherwise — raw file missing or no
`X` column — the estimate `len(category_data[category_data['X_Total_Engagement'] > 0])`. -/
def xFrequency (platform_stats : Option (List RawRecord))
    (category_data : List TagRow) (category : String) : Nat :=
  match platform_stats with
  | some raw =>
    if raw.any (fun r => r.platform == "X") then
      if raw.any (fun r => r.category_id == category) then
        crosstabCount raw category "X"
      else 0
    else (category_data.filter (fun row => 0 < row.X_Total_Engagement)).length
  | none => (category_data.filter (fun row => 0 < row.X_Total_Engagement)).length

/-- Truth-Social analogue of `xFrequency`, from the same code block. -/
def truthFrequency (platform_stats : Option (List RawRecord))
    (category_data : List TagRow) (category : String) : Nat :=
  match platform_stats with
  | some raw =>
    if raw.any (fun r => r.platform == "Truth Social") then
      if raw.any (fun r => r.category_id == category) then
        crosstabCount raw category "Truth Social"
      else 0
    else (category_data.filter (fun row => 0 < row.Truth_Total_Engagement)).length
  | none => (category_data.filter (fun row => 0 < row.Truth_Total_Engagement)).length

/-- The `Combined` row appended for a category by `calculate_category_stats`. -/
def combinedRow (df : List TagRow) (category : String) : CatRow :=
  let category_data := categoryData df category
  let total_posts := sumFreqCount df
  let combined_frequency := sumFreqCount category_data
  let combined_total_engagement := sumTotalEngagement category_data
  let combined_avg_engagement : ℚ :=
    if 0 < combined_frequency then
      (combined_total_engagement : ℚ) / (combined_frequency : ℚ)
    else 0
  let combined_frequency_pct : ℚ :=
    if 0 < total_posts then ((combined_frequency : ℚ) / (total_posts : ℚ)) * 100 else 0
  { CategoryID := category
    CategoryName := categoryName category
    Platform := "Combined"
    freqCount := some combined_frequency
    freqPct := some combined_frequency_pct
    totalEngagement := some combined_total_engagement
    avgEngagement := some combined_avg_engagement }

/-- The `X` row appended for a category: every cell is guarded and renders
as the empty string when its own guard value is not positive. -/
def xRow (df : List TagRow) (platform_stats : Option (List RawRecord))
    (category : String) : CatRow :=
  let category_data := categoryData df category
  let total_posts := sumFreqCount df
  let x_frequency := xFrequency platform_stats category_data category
  let x_total_engagement := sumXTotalEngagement category_data
  let x_avg_engagement : ℚ :=
    if 0 < x_frequency then (x_total_engagement : ℚ) / (x_frequency : ℚ) else 0
  let x_frequency_pct : ℚ :=
    if 0 < total_posts then ((x_frequency : ℚ) / (total_posts : ℚ)) * 100 else 0
  { CategoryID := category
    CategoryName := categoryName category
    Platform := "X"
    freqCount := if 0 < x_frequency then some x_frequency else none
    freqPct := if 0 < x_frequency then some x_frequency_pct else none
    totalEngagement := if 0 < x_total_engagement then some x_total_engagement else none
    avgEngagement := if 0 < x_avg_engagement then some x_avg_engagement else none }

/-- The `Truth Social` row appended for a category. -/
def truthRow (df : List TagRow) (platform_stats : Option (List RawRecord))
    (category : String) : CatRow :=
  let category_data := categoryData df category
  let total_posts := sumFreqCount df
  let truth_frequency := truthFrequency platform_stats category_data category
  let truth_total_engagement := sumTruthTotalEngagement category_data
  let truth_avg_engagement : ℚ :=
    if 0 < truth_frequency then
      (truth_total_engagement : ℚ) / (truth_frequency : ℚ)
    else 0
  let truth_frequency_pct : ℚ :=
    if 0 < total_posts then ((truth_frequency : ℚ) / (total_posts : ℚ)) * 100 else 0
  { CategoryID := category
    CategoryName := categoryName category
    Platform := "Truth Social"
    freqCount := if 0 < truth_frequency then some truth_frequency else none
    freqPct := if 0 < truth_frequency then some truth_frequency_pct else none
    totalEngagement :=
      if 0 < truth_total_engagement then some truth_total_engagement else none
    avgEngagement := if 0 < truth_avg_engagement then some truth_avg_engagement else none }

/-- The grand-total row: its `Frequency (%)` cell is the literal string
`'100%'`, modelled as the value `100`. -/
def totalRow (df : List TagRow) : CatRow :=
  let total_posts := sumFreqCount df
  let total_engagement := sumTotalEngagement df
  let total_avg_engagement : ℚ :=
    if 0 < total_posts then (total_engagement : ℚ) / (total_posts : ℚ) else 0
  { CategoryID := "TOTAL"
    CategoryName := "All Categories"
    Platform := "Combined"
    freqCount := some total_posts
    freqPct := some 100
    totalEngagement := some total_engagement
    avgEngagement := some total_avg_engagement }

/-- `calculate_category_stats`: the `for category in ['A', 'B', 'C']` loop
appends Combined, X and Truth Social rows for each category in order, then
the grand-total row. -/
def calculate_category_stats (df : List TagRow)
    (platform_stats : Option (List RawRecord)) : List CatRow :=
  [combinedRow df "A", xRow df platform_stats "A", truthRow df platform_stats "A",
   combinedRow df "B", xRow df platform_stats "B", truthRow df platform_stats "B",
   combinedRow df "C", xRow df platform_stats "C", truthRow df platform_stats "C",
   totalRow df]

/-- `Engagement_overall_processor.main`: a missing
`Engagement_data_processed.csv` (`load_processed_data` returns `None`)
aborts the run with no output, while a missing `Engagement_data_raw.csv`
(`load_raw_data` returns `None`) only prints
`Warning: Raw data file not found, will use estimated values` and the
computation proceeds with estimated platform frequencies.
`none` models a missing input file. -/
def runOverall (processed : Option (List TagRow))
    (raw : Option (List RawRecord)) : Option (List CatRow) :=
  match processed with
  | none => none
  | some df => some (calculate_category_stats df raw)

/-!
`strategic_signal_matrix_X.py` / `strategic_signal_matrix_truth_media.py`:
the frequency normalizer derives platform-specific mention counts by
back-division of total engagement by average engagement.
-/

/-- `X_Frequency_Count` as stored by `calculate_x_frequency_percentage`:
the back-divided quotient, rounded with Python's `round`. -/
def xFreqCountOf (row : TagRow) : ℤ :=
  if 0 < row.X_Average_Engagement then
    pyRound ((row.X_Total_Engagement : ℚ) / row.X_Average_Engagement)
  else 0

/-- `total_x_posts`: the sum of the unrounded quotients over the rows
(the `else` branch contributes nothing). -/
def totalXPosts (df : List TagRow) : ℚ :=
  (df.map (fun row =>
    if 0 < row.X_Average_Engagement then
      (row.X_Total_Engagement : ℚ) / row.X_Average_Engagement
    else 0)).sum

/-- `X_Frequency_Percent`: the rounded count divided by `total_x_posts`,
times 100, with 0 substituted when `total_x_posts` is not positive. -/
def xFreqPctOf (df : List TagRow) (row : TagRow) : ℚ :=
  if 0 < totalXPosts df then ((xFreqCountOf row : ℚ) / totalXPosts df) * 100 else 0

/-- `Truth_Frequency_Count` as stored by
`calculate_truth_frequency_percentage`. -/
def truthFreqCountOf (row : TagRow) : ℤ :=
  if 0 < row.Truth_Average_Engagement then
    pyRound ((row.Truth_Total_Engagement : ℚ) / row.Truth_Average_Engagement)
  else 0

/-- `total_truth_posts`: the sum of the unrounded quotients over the rows. -/
def totalTruthPosts (df : List TagRow) : ℚ :=
  (df.map (fun row =>
    if 0 < row.Truth_Average_Engagement then
      (row.Truth_Total_Engagement : ℚ) / row.Truth_Average_Engagement
    else 0)).sum

/-- `Truth_Frequency_Percent`. -/
def truthFreqPctOf (df : List TagRow) (row : TagRow) : ℚ :=
  if 0 < totalTruthPosts df then
    ((truthFreqCountOf row : ℚ) / totalTruthPosts df) * 100
  else 0

/-! ### Concrete inputs used by witnesses and counterexamples -/

/-- The concrete input of the spec's §8 scenario: three records, tags
`A1, A1, B2`, platform `X`, likes `10, 20, 5`, reposts `1, 2, 0`,
replies `0, 1, 1`. -/
def exampleRecords : List RawRecord :=
  [⟨"A1", "A", "X", 10, 1, 0⟩, ⟨"A1", "A", "X", 20, 2, 1⟩, ⟨"B2", "B", "X", 5, 0, 1⟩]

/-- Three `A1` records with a single like: `Total_Engagement = 1` over
`mention_count = 3`, so the output's average cell holds `0.33`, not `1/3`. -/
def exThirds : List RawRecord :=
  [⟨"A1", "A", "X", 1, 0, 0⟩, ⟨"A1", "A", "X", 0, 0, 0⟩, ⟨"A1", "A", "X", 0, 0, 0⟩]

/-- One record whose `Tag_id` contains two taxonomy codes: substring
matching counts it toward both `A1` and `B2`. -/
def exMulti : List RawRecord := [⟨"A1 B2", "A", "X", 1, 0, 0⟩]

/-- A single X record with zero engagement: with the raw file missing, the
X frequency of category A is estimated as 0 from the engagement columns;
with the raw file present it is counted as 1 from the crosstab. -/
def exEstimate : List RawRecord := [⟨"A1", "A", "X", 0, 0, 0⟩]

/-! ### Helper lemmas -/

theorem charListLt_trans :
    ∀ a b c : List Char, charListLt a b = true → charListLt b c = true →
      charListLt a c = true := by
  intro a
  induction a with
  | nil =>
    intro b c hab hbc
    cases c with
    | nil => cases b <;> simp [charListLt] at hab hbc
    | cons z zs => simp [charListLt]
  | cons x xs ih =>
    intro b c hab hbc
    cases b with
    | nil => simp [charListLt] at hab
    | cons y ys =>
      cases c with
      | nil => simp [charListLt] at hbc
      | cons z zs =>
        simp only [charListLt, Bool.or_eq_true, Bool.and_eq_true,
          decide_eq_true_eq] at hab hbc ⊢
        rcases hab with h1 | ⟨h1, h2⟩ <;> rcases hbc with h3 | ⟨h3, h4⟩
        · exact Or.inl (h1.trans h3)
        · exact Or.inl (h3 ▸ h1)
        · exact Or.inl (h1 ▸ h3)
        · exact Or.inr ⟨h1.trans h3, ih ys zs h2 h4⟩

theorem charListLt_connex :
    ∀ a b : List Char, charListLt a b = true ∨ a = b ∨ charListLt b a = true := by
  intro a
  induction a with
  | nil =>
    intro b
    cases b with
    | nil => exact Or.inr (Or.inl rfl)
    | cons z zs => exact Or.inl (by simp [charListLt])
  | cons x xs ih =>
    intro b
    cases b with
    | nil => exact Or.inr (Or.inr (by simp [charListLt]))
    | cons y ys =>
      rcases Nat.lt_trichotomy x.toNat y.toNat with h | h | h
      · exact Or.inl (by simp [charListLt, h])
      · have hxy : x = y := Char.ext (UInt32.ext h)
        rcases ih ys with h2 | h2 | h2
        · exact Or.inl (by simp [charListLt, h, h2])
        · exact Or.inr (Or.inl (by rw [hxy, h2]))
        · exact Or.inr (Or.inr (by simp [charListLt, h, h2]))
      · exact Or.inr (Or.inr (by simp [charListLt, h]))

theorem strLt_trans {a b c : String} (h1 : strLt a b = true) (h2 : strLt b c = true) :
    strLt a c = true :=
  charListLt_trans a.data b.data c.data h1 h2

theorem strLe_trans {a b c : String} (h1 : strLe a b = true) (h2 : strLe b c = true) :
    strLe a c = true := by
  simp only [strLe, Bool.or_eq_true, beq_iff_eq] at h1 h2 ⊢
  rcases h1 with h1 | h1
  · rcases h2 with h2 | h2
    · exact Or.inl (strLt_trans h1 h2)
    · exact Or.inl (h2 ▸ h1)
  · rcases h2 with h2 | h2
    · exact Or.inl (h1 ▸ h2)
    · exact Or.inr (h1.trans h2)

theorem strLt_or_eq_or_gt (a b : String) :
    strLt a b = true ∨ a = b ∨ strLt b a = true := by
  rcases charListLt_connex a.data b.data with h | h | h
  · exact Or.inl h
  · exact Or.inr (Or.inl (by cases a; cases b; exact congrArg String.mk h))
  · exact Or.inr (Or.inr h)

instance : IsTotal TagRow rowLe := by
  constructor
  intro a b
  rcases strLt_or_eq_or_gt a.Category_id b.Category_id with h | h | h
  · exact Or.inl (Or.inl h)
  · rcases strLt_or_eq_or_gt a.Tag_id b.Tag_id with h2 | h2 | h2
    · exact Or.inl (Or.inr ⟨h, by simp [strLe, h2]⟩)
    · exact Or.inl (Or.inr ⟨h, by simp [strLe, h2]⟩)
    · exact Or.inr (Or.inr ⟨h.symm, by simp [strLe, h2]⟩)
  · exact Or.inr (Or.inl h)

instance : IsTrans TagRow rowLe := by
  constructor
  intro a b c hab hbc
  rcases hab with hab | ⟨hab, hab2⟩
  · rcases hbc with hbc | ⟨hbc, _⟩
    · exact Or.inl (strLt_trans hab hbc)
    · exact Or.inl (hbc ▸ hab)
  · rcases hbc with hbc | ⟨hbc, hbc2⟩
    · exact Or.inl (hab ▸ hbc)
    · exact Or.inr ⟨hab.trans hbc, strLe_trans hab2 hbc2⟩

theorem mkTagRow_Tag_id (records : List RawRecord) (t : String) :
    (mkTagRow records t).Tag_id = t := by
  simp only [mkTagRow]
  split <;> rfl

theorem mkTagRow_Category_id (records : List RawRecord) (t : String) :
    (mkTagRow records t).Category_id = String.mk (t.data.take 1) := by
  simp only [mkTagRow]
  split <;> rfl

theorem mkTagRow_frequency_count (records : List RawRecord) (t : String) :
    (mkTagRow records t).frequency_count
      = (records.filter (fun r => strContains r.tag_id t)).length := by
  simp only [mkTagRow]
  split
  · rfl
  · next h => simpa using (Nat.eq_zero_of_not_pos h).symm

theorem mkTagRow_of_no_match (records : List RawRecord) (t : String)
    (hz : (records.filter (fun r => strContains r.tag_id t)).length = 0) :
    mkTagRow records t = zeroTagRow t := by
  simp [mkTagRow, zeroTagRow, hz]

theorem tagRows_map_Tag_id (records : List RawRecord) :
    (tagRows records).map TagRow.Tag_id = all_expected_tags := by
  unfold tagRows
  rw [List.map_map]
  have h : TagRow.Tag_id ∘ mkTagRow records = id := by
    funext t
    exact mkTagRow_Tag_id records t
  rw [h, List.map_id]

theorem processedRows_perm (records : List RawRecord) :
    (processedRows records).Perm (tagRows records) :=
  List.perm_insertionSort rowLe (tagRows records)

unseal Rat.mul Rat.add Rat.sub Rat.inv in
theorem round2_zero : round2 0 = 0 := by decide

theorem isPrefixOf_exists (pat : List Char) :
    ∀ s : List Char, pat.isPrefixOf s = true ↔ ∃ v, pat ++ v = s := by
  induction pat with
  | nil =>
    intro s
    simp [List.isPrefixOf]
  | cons a l ih =>
    intro s
    cases s with
    | nil => simp [List.isPrefixOf]
    | cons b t =>
      simp only [List.isPrefixOf, Bool.and_eq_true, beq_iff_eq, ih,
        List.cons_append, List.cons.injEq]
      constructor
      · rintro ⟨rfl, v, rfl⟩
        exact ⟨v, rfl, rfl⟩
      · rintro ⟨v, rfl, rfl⟩
        exact ⟨rfl, v, rfl⟩

/-- `listIsInfix pat s` holds exactly when `pat` occurs contiguously in `s`:
the substring semantics of Python's `in` and of pandas `str.contains` for a
literal pattern. -/
theorem listIsInfix_exists (pat : List Char) :
    ∀ s : List Char, listIsInfix pat s = true ↔ ∃ u v, u ++ pat ++ v = s := by
  intro s
  induction s with
  | nil =>
    cases pat with
    | nil =>
      simp only [listIsInfix, List.isEmpty_nil, true_iff]
      exact ⟨[], [], rfl⟩
    | cons a l => simp [listIsInfix]
  | cons c t ih =>
    simp only [listIsInfix, Bool.or_eq_true, ih]
    constructor
    · rintro (h | ⟨u, v, rfl⟩)
      · obtain ⟨v, hv⟩ := (isPrefixOf_exists pat (c :: t)).mp h
        exact ⟨[], v, by simpa using hv⟩
      · exact ⟨c :: u, v, by simp⟩
    · rintro ⟨u, v, huv⟩
      cases u with
      | nil =>
        left
        exact (isPrefixOf_exists pat (c :: t)).mpr ⟨v, by simpa using huv⟩
      | cons x xs =>
        right
        simp only [List.cons_append, List.cons.injEq] at huv
        exact ⟨xs, v, huv.2⟩

theorem strContains_exists (s pat : String) :
    strContains s pat = true ↔ ∃ u v, u ++ pat.data ++ v = s.data :=
  listIsInfix_exists pat.data s.data

/-! ### C1 -/

/-- C1: for every tag of the fixed 22-tag taxonomy the tag-level output
contains exactly one row, a tag with zero matching records yields its
all-zero row rather than being omitted, and the output row count is always
22 (the taxonomy size) regardless of the input records. -/
theorem c1_one_row_per_taxonomy_tag (records : List RawRecord) (T : String)
    (hT : T ∈ all_expected_tags) :
    (processedRows records).length = 22 ∧
    ((processedRows records).map TagRow.Tag_id).count T = 1 ∧
    ((records.filter (fun r => strContains r.tag_id T)).length = 0 →
      zeroTagRow T ∈ processedRows records) := by
  refine ⟨?_, ?_, ?_⟩
  · rw [(processedRows_perm records).length_eq]
    simp [tagRows, all_expected_tags]
  · rw [((processedRows_perm records).map TagRow.Tag_id).count_eq T,
      tagRows_map_Tag_id]
    exact List.count_eq_one_of_mem (by decide) hT
  · intro hz
    rw [(processedRows_perm records).mem_iff, ← mkTagRow_of_no_match records T hz]
    exact List.mem_map_of_mem (mkTagRow records) hT

unseal Rat.mul Rat.add Rat.sub Rat.inv in
theorem c1_one_row_per_taxonomy_tag_witness :
    ("C8" ∈ all_expected_tags) ∧
    ((processedRows exampleRecords).length = 22 ∧
     ((processedRows exampleRecords).map TagRow.Tag_id).count "C8" = 1 ∧
     ((exampleRecords.filter (fun r => strContains r.tag_id "C8")).length = 0 →
       zeroTagRow "C8" ∈ processedRows exampleRecords)) :=
  ⟨by decide, c1_one_row_per_taxonomy_tag exampleRecords "C8" (by decide)⟩

/-! ### C2 -/

/-- C2: a record is counted toward tag `T` exactly when its `Tag_id`
contains `T`'s code as a substring (not exact equality); `mention_count`
(`Frequency (Count)`) is the number of such records and `Frequency (%)` is
`mention_count / total_records × 100` rounded to 2 decimal places. -/
theorem c2_substring_matching_and_frequency (records : List RawRecord)
    (T : String) (r : RawRecord) :
    ((r ∈ records.filter (fun rr => strContains rr.tag_id T)) ↔
      (r ∈ records ∧ ∃ u v, u ++ T.data ++ v = r.tag_id.data)) ∧
    (mkTagRow records T).frequency_count
      = (records.filter (fun rr => strContains rr.tag_id T)).length ∧
    (mkTagRow records T).frequency_pct
      = round2 ((((records.filter
            (fun rr => strContains rr.tag_id T)).length : ℚ)
          / (records.length : ℚ)) * 100) := by
  refine ⟨?_, mkTagRow_frequency_count records T, ?_⟩
  · rw [List.mem_filter, strContains_exists]
  · simp only [mkTagRow]
    split
    · rfl
    · next h =>
      have hz : (records.filter (fun rr => strContains rr.tag_id T)).length = 0 := by
        omega
      simp [hz, round2_zero]

/-! ### C3 -/

/-- C3 (amended): every tag-level output row satisfies
`Total_Engagement = Total_Likes + Total_Reposts + Total_Comments`, and its
`Average_Engagement` cell is `Total_Engagement / mention_count` rounded to
2 decimal places when `mention_count > 0`, else 0 (the division-by-zero
fallback is never exercised when a division happens). -/
theorem c3_engagement_identity (records : List RawRecord) (row : TagRow)
    (hrow : row ∈ processedRows records) :
    row.Total_Engagement = row.Total_Likes + row.Total_Reposts + row.Total_Comments ∧
    row.Average_Engagement =
      (if 0 < row.frequency_count then
        round2 ((row.Total_Engagement : ℚ) / (row.frequency_count : ℚ))
      else 0) := by
  rw [(processedRows_perm records).mem_iff] at hrow
  obtain ⟨t, _ht, rfl⟩ := List.mem_map.mp hrow
  simp only [mkTagRow]
  split
  · next h => exact ⟨rfl, by simp [h]⟩
  · next h => simp

unseal Rat.mul Rat.add Rat.sub Rat.inv in
theorem c3_engagement_identity_witness :
    (mkTagRow exampleRecords "A1" ∈ processedRows exampleRecords) ∧
    ((mkTagRow exampleRecords "A1").Total_Engagement
        = (mkTagRow exampleRecords "A1").Total_Likes
          + (mkTagRow exampleRecords "A1").Total_Reposts
          + (mkTagRow exampleRecords "A1").Total_Comments ∧
     (mkTagRow exampleRecords "A1").Average_Engagement =
       (if 0 < (mkTagRow exampleRecords "A1").frequency_count then
         round2 (((mkTagRow exampleRecords "A1").Total_Engagement : ℚ)
           / ((mkTagRow exampleRecords "A1").frequency_count : ℚ))
       else 0)) :=
  ⟨by decide, c3_engagement_identity exampleRecords _ (by decide)⟩

unseal Rat.mul Rat.add Rat.sub Rat.inv in
theorem c3_engagement_identity_counterexample :
    (mkTagRow exThirds "A1" ∈ processedRows exThirds) ∧
    0 < (mkTagRow exThirds "A1").frequency_count ∧
    (mkTagRow exThirds "A1").Average_Engagement
      ≠ ((mkTagRow exThirds "A1").Total_Engagement : ℚ)
          / ((mkTagRow exThirds "A1").frequency_count : ℚ) := by
  refine ⟨by decide, by decide, by decide⟩

/-! ### C10 -/

theorem sumLikes_cons (r : RawRecord) (l : List RawRecord) :
    sumLikes (r :: l) = r.likes + sumLikes l := by simp [sumLikes]

theorem sumReposts_cons (r : RawRecord) (l : List RawRecord) :
    sumReposts (r :: l) = r.repost + sumReposts l := by simp [sumReposts]

theorem sumReplies_cons (r : RawRecord) (l : List RawRecord) :
    sumReplies (r :: l) = r.replies + sumReplies l := by simp [sumReplies]

/-- Splitting the three engagement sums over the X / Truth Social
partition of a record list whose platforms all lie in the two values. -/
theorem sum_engagement_partition (l : List RawRecord)
    (h : ∀ r ∈ l, r.platform = "X" ∨ r.platform = "Truth Social") :
    sumLikes l + sumReposts l + sumReplies l
      = (sumLikes (l.filter (fun r => r.platform == "X"))
         + sumReposts (l.filter (fun r => r.platform == "X"))
         + sumReplies (l.filter (fun r => r.platform == "X")))
        + (sumLikes (l.filter (fun r => r.platform == "Truth Social"))
           + sumReposts (l.filter (fun r => r.platform == "Truth Social"))
           + sumReplies (l.filter (fun r => r.platform == "Truth Social"))) := by
  induction l with
  | nil => simp [sumLikes, sumReposts, sumReplies]
  | cons r rs ih =>
    have hrs : ∀ x ∈ rs, x.platform = "X" ∨ x.platform = "Truth Social" :=
      fun x hx => h x (List.mem_cons_of_mem r hx)
    have ihh := ih hrs
    have hne : ("X" : String) ≠ "Truth Social" := by decide
    rcases h r (List.mem_cons_self r rs) with hp | hp
    · simp only [List.filter_cons, hp, beq_self_eq_true, if_pos, beq_iff_eq,
        hne, if_false, ite_false, ite_true, sumLikes_cons, sumReposts_cons,
        sumReplies_cons] at ihh ⊢
      omega
    · simp only [List.filter_cons, hp, beq_self_eq_true, if_pos, beq_iff_eq,
        hne.symm, if_false, ite_false, ite_true, sumLikes_cons, sumReposts_cons,
        sumReplies_cons] at ihh ⊢
      omega

/-- The guarded platform-engagement expression of `mkTagRow` equals the
unguarded sum: an empty selection sums to zero anyway. -/
theorem if_engagement_sum (ld : List RawRecord) :
    (if 0 < ld.length then sumLikes ld + sumReposts ld + sumReplies ld else 0)
      = sumLikes ld + sumReposts ld + sumReplies ld := by
  split
  · rfl
  · next hl =>
    have hnil : ld = [] := List.length_eq_zero.mp (by omega)
    subst hnil
    simp [sumLikes, sumReposts, sumReplies]

/-- C10: in every tag-level output row, `Total_Engagement` is the sum of
`X_Total_Engagement` and `Truth_Total_Engagement`, provided every input
record's `Platform` is exactly `"X"` or `"Truth Social"`. -/
theorem c10_total_engagement_platform_split (records : List RawRecord)
    (row : TagRow) (hrow : row ∈ processedRows records)
    (h : ∀ r ∈ records, r.platform = "X" ∨ r.platform = "Truth Social") :
    row.Total_Engagement = row.X_Total_Engagement + row.Truth_Total_Engagement := by
  rw [(processedRows_perm records).mem_iff] at hrow
  obtain ⟨t, _ht, rfl⟩ := List.mem_map.mp hrow
  have htd : ∀ r ∈ records.filter (fun rr => strContains rr.tag_id t),
      r.platform = "X" ∨ r.platform = "Truth Social" :=
    fun r hr => h r (List.mem_of_mem_filter hr)
  simp only [mkTagRow]
  split
  · rw [if_engagement_sum, if_engagement_sum]
    exact sum_engagement_partition _ htd
  · simp

unseal Rat.mul Rat.add Rat.sub Rat.inv in
theorem c10_total_engagement_platform_split_witness :
    (mkTagRow exampleRecords "A1" ∈ processedRows exampleRecords) ∧
    (∀ r ∈ exampleRecords, r.platform = "X" ∨ r.platform = "Truth Social") ∧
    (mkTagRow exampleRecords "A1").Total_Engagement
      = (mkTagRow exampleRecords "A1").X_Total_Engagement
        + (mkTagRow exampleRecords "A1").Truth_Total_Engagement :=
  ⟨by decide, by decide,
    c10_total_engagement_platform_split exampleRecords _ (by decide) (by decide)⟩

/-! ### C4 -/

/-- A filtered tag table cannot out-sum the full table. -/
theorem sumFreqCount_filter_le (df : List TagRow) (p : TagRow → Bool) :
    sumFreqCount (df.filter p) ≤ sumFreqCount df :=
  List.Sublist.sum_le_sum ((List.filter_sublist df).map TagRow.frequency_count)
    (fun a _ => Nat.zero_le a)

/-- C4: the category-level combined row of category `c` carries, as its
frequency count, the sum of `Frequency (Count)` over the tag rows whose
`Category_id` is `c`, and, as its frequency percentage, that sum divided by
the grand total (the sum of `Frequency (Count)` over all tag rows) times
100. -/
theorem c4_combined_row_sums (df : List TagRow) (ps : Option (List RawRecord))
    (c : String) (hc : c ∈ ["A", "B", "C"]) :
    combinedRow df c ∈ calculate_category_stats df ps ∧
    (combinedRow df c).freqCount = some (sumFreqCount (categoryData df c)) ∧
    (combinedRow df c).freqPct
      = some (((sumFreqCount (categoryData df c) : ℚ)
          / (sumFreqCount df : ℚ)) * 100) := by
  refine ⟨?_, rfl, ?_⟩
  · fin_cases hc <;> simp [calculate_category_stats]
  · simp only [combinedRow]
    split
    · rfl
    · next h =>
      have h0 : sumFreqCount df = 0 := by omega
      have hcf : sumFreqCount (categoryData df c) = 0 := by
        have hle := sumFreqCount_filter_le df (fun row => row.Category_id == c)
        unfold categoryData
        omega
      rw [h0, hcf]
      norm_num

unseal Rat.mul Rat.add Rat.sub Rat.inv in
theorem c4_combined_row_sums_witness :
    ("A" ∈ (["A", "B", "C"] : List String)) ∧
    (combinedRow (processedRows exampleRecords) "A"
        ∈ calculate_category_stats (processedRows exampleRecords)
            (some exampleRecords) ∧
     (combinedRow (processedRows exampleRecords) "A").freqCount
        = some (sumFreqCount (categoryData (processedRows exampleRecords) "A")) ∧
     (combinedRow (processedRows exampleRecords) "A").freqPct
        = some (((sumFreqCount (categoryData (processedRows exampleRecords) "A") : ℚ)
            / (sumFreqCount (processedRows exampleRecords) : ℚ)) * 100)) :=
  ⟨by decide,
    c4_combined_row_sums (processedRows exampleRecords) (some exampleRecords)
      "A" (by decide)⟩

/-! ### C5 -/

theorem sum_map_add_nat {α : Type} (l : List α) (f g : α → Nat) :
    (l.map (fun x => f x + g x)).sum = (l.map f).sum + (l.map g).sum := by
  induction l with
  | nil => rfl
  | cons a t ih =>
    simp only [List.map_cons, List.sum_cons, ih]
    omega

theorem sum_indicator_eq_countP {α : Type} (l : List α) (p : α → Bool) :
    (l.map (fun a => if p a then 1 else 0)).sum = l.countP p := by
  induction l with
  | nil => rfl
  | cons a t ih =>
    by_cases h : p a <;>
      simp only [List.map_cons, List.sum_cons, List.countP_cons, h, ih,
        if_true, if_false, ite_true, ite_false] <;>
      omega

/-- Double counting: summing, over the taxonomy, the number of records each
tag matches equals summing, over the records, the number of taxonomy tags
each record matches. -/
theorem countP_sum_swap (records : List RawRecord) (tags : List String) :
    (tags.map (fun t => records.countP (fun r => strContains r.tag_id t))).sum
      = (records.map (fun r => tags.countP (fun t => strContains r.tag_id t))).sum := by
  induction records with
  | nil => simp
  | cons r rs ih =>
    have hl : tags.map (fun t => (r :: rs).countP (fun x => strContains x.tag_id t))
        = tags.map (fun t => rs.countP (fun x => strContains x.tag_id t)
            + (if strContains r.tag_id t then 1 else 0)) := by
      apply List.map_congr_left
      intro t _
      rw [List.countP_cons]
    rw [hl, sum_map_add_nat, ih, sum_indicator_eq_countP]
    simp only [List.map_cons, List.sum_cons]
    rw [Nat.add_comm]

/-- C5 (amended): the grand-total row's `Frequency (Count)` is the sum of
`Frequency (Count)` over all tag rows, which equals the number of input
records whenever every record's `Tag_id` matches exactly one taxonomy code;
its `Frequency (%)` cell is the hardcoded literal `'100%'`. -/
theorem c5_grand_total_row (records : List RawRecord)
    (h : ∀ r ∈ records,
      all_expected_tags.countP (fun t => strContains r.tag_id t) = 1) :
    sumFreqCount (processedRows records) = records.length ∧
    (totalRow (processedRows records)).freqCount = some records.length ∧
    (totalRow (processedRows records)).freqPct = some 100 := by
  have h1 : (tagRows records).map TagRow.frequency_count
      = all_expected_tags.map
          (fun t => records.countP (fun r => strContains r.tag_id t)) := by
    unfold tagRows
    rw [List.map_map]
    apply List.map_congr_left
    intro t _
    simp [mkTagRow_frequency_count, List.countP_eq_length_filter]
  have key : sumFreqCount (processedRows records) = records.length := by
    unfold sumFreqCount
    rw [List.Perm.sum_eq ((processedRows_perm records).map TagRow.frequency_count),
      h1, countP_sum_swap, List.map_congr_left (fun r hr => h r hr),
      List.map_const', List.sum_replicate]
    simp
  refine ⟨key, ?_, rfl⟩
  simp only [totalRow]
  rw [key]

unseal Rat.mul Rat.add Rat.sub Rat.inv in
theorem c5_grand_total_row_witness :
    (∀ r ∈ exampleRecords,
      all_expected_tags.countP (fun t => strContains r.tag_id t) = 1) ∧
    (sumFreqCount (processedRows exampleRecords) = exampleRecords.length ∧
     (totalRow (processedRows exampleRecords)).freqCount
        = some exampleRecords.length ∧
     (totalRow (processedRows exampleRecords)).freqPct = some 100) :=
  ⟨by decide, c5_grand_total_row exampleRecords (by decide)⟩

unseal Rat.mul Rat.add Rat.sub Rat.inv in
theorem c5_grand_total_row_counterexample :
    ((calculate_category_stats (processedRows exMulti) (some exMulti)).getLast?
        = some (totalRow (processedRows exMulti))) ∧
    (totalRow (processedRows exMulti)).freqCount = some 2 ∧
    exMulti.length = 1 := by
  refine ⟨by decide, by decide, by decide⟩

/-! ### C6 -/

/-- C6 (amended): a missing `Engagement_data_processed.csv` is fatal — the
run yields no output; but a missing `Engagement_data_raw.csv` is NOT fatal —
the run still produces the full category table, with each platform
frequency estimated as the number of the category's tag rows with positive
platform engagement instead of being counted from raw records. -/
theorem c6_missing_input_behaviour (raw : Option (List RawRecord))
    (df : List TagRow) :
    runOverall none raw = none ∧
    runOverall (some df) raw = some (calculate_category_stats df raw) ∧
    xFrequency none (categoryData df "A") "A"
      = ((categoryData df "A").filter
          (fun row => 0 < row.X_Total_Engagement)).length ∧
    truthFrequency none (categoryData df "A") "A"
      = ((categoryData df "A").filter
          (fun row => 0 < row.Truth_Total_Engagement)).length :=
  ⟨rfl, rfl, rfl, rfl⟩

unseal Rat.mul Rat.add Rat.sub Rat.inv in
theorem c6_missing_input_behaviour_counterexample :
    (runOverall (some (processedRows exEstimate)) none).isSome = true ∧
    runOverall (some (processedRows exEstimate)) none
      ≠ runOverall (some (processedRows exEstimate)) (some exEstimate) := by
  refine ⟨by decide, by decide⟩

/-! ### C7 -/

theorem ite_some_none_eq_none {α : Type} (cond : Prop) [Decidable cond] (v : α) :
    ((if cond then some v else none) = none) ↔ ¬ cond := by
  split <;> simp [*]

/-- C7 (amended): in a platform row of the category-level output the two
`Frequency` cells are empty exactly when the platform frequency count is
zero, but the `Total Engagement` cell is empty exactly when the platform
total engagement is not positive (it can be empty with a positive frequency
and non-empty with a zero frequency), and the `Average Engagement` cell is
empty exactly when the computed average is not positive — in particular it
is empty whenever the frequency is zero. -/
theorem c7_platform_row_empty_cells (df : List TagRow)
    (ps : Option (List RawRecord)) (c : String) :
    ((xRow df ps c).freqCount = none
        ↔ xFrequency ps (categoryData df c) c = 0) ∧
    ((xRow df ps c).freqPct = none
        ↔ xFrequency ps (categoryData df c) c = 0) ∧
    ((xRow df ps c).totalEngagement = none
        ↔ sumXTotalEngagement (categoryData df c) ≤ 0) ∧
    ((xRow df ps c).avgEngagement = none
        ↔ (if 0 < xFrequency ps (categoryData df c) c then
            (sumXTotalEngagement (categoryData df c) : ℚ)
              / (xFrequency ps (categoryData df c) c : ℚ)
          else 0) ≤ 0) ∧
    (xFrequency ps (categoryData df c) c = 0 →
      (xRow df ps c).avgEngagement = none) ∧
    ((truthRow df ps c).freqCount = none
        ↔ truthFrequency ps (categoryData df c) c = 0) ∧
    ((truthRow df ps c).freqPct = none
        ↔ truthFrequency ps (categoryData df c) c = 0) ∧
    ((truthRow df ps c).totalEngagement = none
        ↔ sumTruthTotalEngagement (categoryData df c) ≤ 0) ∧
    ((truthRow df ps c).avgEngagement = none
        ↔ (if 0 < truthFrequency ps (categoryData df c) c then
            (sumTruthTotalEngagement (categoryData df c) : ℚ)
              / (truthFrequency ps (categoryData df c) c : ℚ)
          else 0) ≤ 0) ∧
    (truthFrequency ps (categoryData df c) c = 0 →
      (truthRow df ps c).avgEngagement = none) := by
  simp only [xRow, truthRow]
  refine ⟨?_, ?_, ?_, ?_, ?_, ?_, ?_, ?_, ?_, ?_⟩
  · rw [ite_some_none_eq_none]
    omega
  · rw [ite_some_none_eq_none]
    omega
  · rw [ite_some_none_eq_none]
    omega
  · rw [ite_some_none_eq_none]
    exact not_lt
  · intro h0
    simp [h0]
  · rw [ite_some_none_eq_none]
    omega
  · rw [ite_some_none_eq_none]
    omega
  · rw [ite_some_none_eq_none]
    omega
  · rw [ite_some_none_eq_none]
    exact not_lt
  · intro h0
    simp [h0]

unseal Rat.mul Rat.add Rat.sub Rat.inv in
theorem c7_platform_row_empty_cells_counterexample :
    ((calculate_category_stats (processedRows exEstimate) (some exEstimate))[1]?
        = some (xRow (processedRows exEstimate) (some exEstimate) "A")) ∧
    (xRow (processedRows exEstimate) (some exEstimate) "A").freqCount = some 1 ∧
    (xRow (processedRows exEstimate) (some exEstimate) "A").totalEngagement
      = none := by
  refine ⟨by decide, by decide, by decide⟩

/-! ### C8 -/

/-- C8: in the frequency-normalizer step, a row's platform-specific mention
count is `platform_total_engagement / platform_average_engagement` rounded
to the nearest integer (Python `round`, ties to even) when the platform
average engagement is positive, and 0 otherwise; the platform frequency
percentage is the rounded count divided by the derived total post count
(the sum of the unrounded quotients over the table) times 100, whenever
that total is positive. -/
theorem c8_back_division_counts (df : List TagRow) (row : TagRow) :
    (0 < row.X_Average_Engagement →
      xFreqCountOf row
        = pyRound ((row.X_Total_Engagement : ℚ) / row.X_Average_Engagement)) ∧
    (¬ 0 < row.X_Average_Engagement → xFreqCountOf row = 0) ∧
    (0 < totalXPosts df →
      xFreqPctOf df row = ((xFreqCountOf row : ℚ) / totalXPosts df) * 100) ∧
    (0 < row.Truth_Average_Engagement →
      truthFreqCountOf row
        = pyRound ((row.Truth_Total_Engagement : ℚ) / row.Truth_Average_Engagement)) ∧
    (¬ 0 < row.Truth_Average_Engagement → truthFreqCountOf row = 0) ∧
    (0 < totalTruthPosts df →
      truthFreqPctOf df row
        = ((truthFreqCountOf row : ℚ) / totalTruthPosts df) * 100) := by
  refine ⟨?_, ?_, ?_, ?_, ?_, ?_⟩ <;> intro h <;>
    simp [xFreqCountOf, xFreqPctOf, truthFreqCountOf, truthFreqPctOf, h]

/-! ### C9 -/

/-- The unsorted tag table is already sorted by (`Category_id`, `Tag_id`):
its keys are the taxonomy codes in declaration order. -/
theorem tagRows_sorted (records : List RawRecord) :
    (tagRows records).Sorted rowLe := by
  have hkeys : all_expected_tags.Pairwise (fun a b =>
      strLt (String.mk (a.data.take 1)) (String.mk (b.data.take 1)) = true ∨
        (String.mk (a.data.take 1) = String.mk (b.data.take 1)
          ∧ strLe a b = true)) := by decide
  unfold tagRows
  rw [List.Sorted, List.pairwise_map]
  refine hkeys.imp ?_
  intro a b hab
  unfold rowLe
  rw [mkTagRow_Tag_id, mkTagRow_Tag_id, mkTagRow_Category_id, mkTagRow_Category_id]
  exact hab

/-- Sorting is the identity here: the rows are generated in sorted order. -/
theorem processedRows_eq_tagRows (records : List RawRecord) :
    processedRows records = tagRows records :=
  List.Sorted.insertionSort_eq (tagRows_sorted records)

/-- C9: the tag-level output is sorted by `Category_id` then `Tag_id` — its
key sequence is exactly the taxonomy in category-then-code order — and the
category-level output lists categories A, B, C in declared order, each with
its Combined, X, Truth Social rows in that order, with the single
grand-total row last. -/
theorem c9_output_ordering (records : List RawRecord) (df : List TagRow)
    (ps : Option (List RawRecord)) :
    (processedRows records).Sorted rowLe ∧
    (processedRows records).map (fun row => (row.Category_id, row.Tag_id))
      = [("A", "A1"), ("A", "A2"), ("A", "A3"), ("A", "A4"), ("A", "A5"),
         ("A", "A6"), ("B", "B1"), ("B", "B2"), ("B", "B3"), ("B", "B4"),
         ("B", "B5"), ("B", "B6"), ("B", "B7"), ("B", "B8"), ("C", "C1"),
         ("C", "C2"), ("C", "C3"), ("C", "C4"), ("C", "C5"), ("C", "C6"),
         ("C", "C7"), ("C", "C8")] ∧
    (calculate_category_stats df ps).map (fun row => (row.CategoryID, row.Platform))
      = [("A", "Combined"), ("A", "X"), ("A", "Truth Social"),
         ("B", "Combined"), ("B", "X"), ("B", "Truth Social"),
         ("C", "Combined"), ("C", "X"), ("C", "Truth Social"),
         ("TOTAL", "Combined")] := by
  refine ⟨?_, ?_, ?_⟩
  · rw [processedRows_eq_tagRows]
    exact tagRows_sorted records
  · rw [processedRows_eq_tagRows]
    unfold tagRows
    rw [List.map_map,
      List.map_congr_left (fun t _ => by
        rw [Function.comp_apply, mkTagRow_Category_id, mkTagRow_Tag_id])]
    decide
  · simp [calculate_category_stats, combinedRow, xRow, truthRow, totalRow]

end Engagement
